import Mathlib

/-!
Verification of the oilgas-challenge ETL pipeline.

Shallow embedding of the reshape/convert/load pipeline:
  - src/etl/transforms/common.py   (days_in_period_month)
  - src/etl/loaders/eia.py         (filtering, unit conversion, pair merge)
  - src/etl/loaders/nysdec.py      (well registry normalisation, coord_valid)
  - src/etl/pipelines/load_all.py  (dimension/fact load into the store)
  - src/etl/main.py                (transaction scope of a run)

Period strings of the form YYYY-MM-01 are embedded by their numeric
year/month pair.  Python floats are embedded as rationals; nullable
values as Option.  pandas NaN propagation is made explicit through
Option.  The SQLite store is embedded as lists of typed rows; the
sqlite3 connection context manager of main.py (commit on success,
rollback on exception) is embedded by the Except monad plus a
rollback wrapper.
-/

namespace OilGas

/-- A calendar month, embedding the period string YYYY-MM-01 of the code
by its year and month fields. -/
structure Month where
  year : Nat
  month : Nat
deriving DecidableEq, Repr

/-- Gregorian leap-year test, as used by Python calendar.monthrange. -/
def isLeapYear (y : Nat) : Bool :=
  (y % 4 == 0 && y % 100 != 0) || (y % 400 == 0)

/-- src/etl/transforms/common.py days_in_period_month: Gregorian
days-in-month of the period, leap-year aware. -/
def days_in_period_month (p : Month) : Nat :=
  if p.month == 2 then (if isLeapYear p.year then 29 else 28)
  else if p.month == 4 || p.month == 6 || p.month == 9 || p.month == 11 then 30
  else 31

/-- src/etl/loaders/eia.py kbpd_to_bbl (inside load_crude_oil): null rate
gives null volume, otherwise rate * 1000 * days_in_period_month. -/
def kbpd_to_bbl (period : Month) (kbpd : Option ℚ) : Option ℚ :=
  match kbpd with
  | none => none
  | some k => some (k * 1000 * (days_in_period_month period : ℚ))

/-- src/etl/loaders/eia.py mmcfd_to_mcf (inside load_natural_gas): null
rate gives null volume, otherwise rate * 1000 * days_in_period_month. -/
def mmcfd_to_mcf (period : Month) (mmcfd : Option ℚ) : Option ℚ :=
  match mmcfd with
  | none => none
  | some g => some (g * 1000 * (days_in_period_month period : ℚ))

/-- src/etl/loaders/eia.py EXCLUDE_AGGREGATES. -/
def EXCLUDE_AGGREGATES : List String :=
  [("U.S."), ("Federal Offshore Gulf of America"),
   ("Federal Offshore Pacific"), ("Other States")]

/-- Python truthiness of the include_states argument: None and the empty
list are both falsy. -/
def includeTruthy (inc : Option (List String)) : Bool :=
  match inc with
  | none => false
  | some xs => !xs.isEmpty

/-- src/etl/loaders/eia.py _filter_states applied to a list of state
names: when include_states is truthy keep only members of it, then
unconditionally remove the EXCLUDE_AGGREGATES names. -/
def filter_states (s : List String) (include_states : Option (List String)) :
    List String :=
  let out := if includeTruthy include_states
             then s.filter (fun x => (include_states.getD []).contains x)
             else s
  out.filter (fun x => !(EXCLUDE_AGGREGATES.contains x))

/-- src/etl/loaders/nysdec.py coord_valid: pandas Series.between is False
on NaN, so a missing coordinate yields False. -/
def coord_valid (latitude longitude : Option ℚ) : Bool :=
  (match longitude with
   | none => false
   | some lo => decide (-180 ≤ lo ∧ lo ≤ 180))
  &&
  (match latitude with
   | none => false
   | some la => decide (-90 ≤ la ∧ la ≤ 90))

/-- pandas Series.astype(str) on a nullable string column: a missing
value (NaN) becomes the literal string nan. -/
def pdAstypeStr (x : Option String) : String :=
  match x with
  | none => ("nan")
  | some s => s

/-- Drop leading whitespace characters from a character list. -/
def dropLeadingWs : List Char → List Char
  | [] => []
  | c :: cs => if c.isWhitespace then dropLeadingWs cs else c :: cs

/-- Python str.strip / pandas Series.str.strip: remove leading and
trailing whitespace. -/
def pyStrip (s : String) : String :=
  String.mk ((dropLeadingWs ((dropLeadingWs s.data).reverse)).reverse)

/-- src/etl/loaders/nysdec.py source_well_id derivation:
d[API_WellNo].astype(str).str.strip(). -/
def nysdec_source_well_id (api_WellNo : Option String) : String :=
  pyStrip (pdAstypeStr api_WellNo)

/-- A long-form EIA row after the melt and state-name extraction steps of
load_crude_oil / load_natural_gas: period month, extracted state name and
the nullable daily rate of the cell. -/
structure EiaLongRow where
  period_month : Month
  state_name : String
  rate : Option ℚ
deriving DecidableEq, Repr

/-- A row of the tidy table returned by load_crude_oil. -/
structure OilRow where
  period_month : Month
  state_name : String
  oil_bbl : Option ℚ
deriving DecidableEq, Repr

/-- A row of the tidy table returned by load_natural_gas. -/
structure GasRow where
  period_month : Month
  state_name : String
  gas_mcf : Option ℚ
deriving DecidableEq, Repr

/-- A row of the combined table returned by load_eia_pair. -/
structure PairRow where
  period_month : Month
  state_name : String
  oil_bbl : Option ℚ
  gas_mcf : Option ℚ
deriving DecidableEq, Repr

/-- Row-level form of the mask that _filter_states produces on the
state_name series: pass the include filter (when the argument is truthy)
and then never be one of the EXCLUDE_AGGREGATES names. -/
def eiaRowKept (include_states : Option (List String)) (name : String) : Bool :=
  (if includeTruthy include_states
   then (include_states.getD []).contains name
   else true)
  && !(EXCLUDE_AGGREGATES.contains name)

/-- Numeric key giving the chronological order of Month, which coincides
with the lexicographic order of the period strings YYYY-MM-01. -/
def monthKey (p : Month) : Nat := p.year * 100 + p.month

/-- sort_values by state_name then period_month for oil rows. -/
def oilRowLe (a b : OilRow) : Bool :=
  decide (a.state_name < b.state_name)
  || (decide (a.state_name = b.state_name)
      && decide (monthKey a.period_month ≤ monthKey b.period_month))

/-- sort_values by state_name then period_month for gas rows. -/
def gasRowLe (a b : GasRow) : Bool :=
  decide (a.state_name < b.state_name)
  || (decide (a.state_name = b.state_name)
      && decide (monthKey a.period_month ≤ monthKey b.period_month))

/-- sort_values by state_name then period_month for combined rows. -/
def pairRowLe (a b : PairRow) : Bool :=
  decide (a.state_name < b.state_name)
  || (decide (a.state_name = b.state_name)
      && decide (monthKey a.period_month ≤ monthKey b.period_month))

/-- src/etl/loaders/eia.py load_crude_oil after melt and state
extraction: filter the rows by the _filter_states mask, convert the daily
rate with kbpd_to_bbl, and sort deterministically. -/
def load_crude_oil (rows : List EiaLongRow)
    (include_states : Option (List String)) : List OilRow :=
  ((rows.filter (fun r => eiaRowKept include_states r.state_name)).map
    (fun r => { period_month := r.period_month, state_name := r.state_name,
                oil_bbl := kbpd_to_bbl r.period_month r.rate })).mergeSort oilRowLe

/-- src/etl/loaders/eia.py load_natural_gas after melt and state
extraction: filter the rows by the _filter_states mask, convert the daily
rate with mmcfd_to_mcf, and sort deterministically. -/
def load_natural_gas (rows : List EiaLongRow)
    (include_states : Option (List String)) : List GasRow :=
  ((rows.filter (fun r => eiaRowKept include_states r.state_name)).map
    (fun r => { period_month := r.period_month, state_name := r.state_name,
                gas_mcf := mmcfd_to_mcf r.period_month r.rate })).mergeSort gasRowLe

/-- Merge key of an oil row: (period_month, state_name). -/
def oilKey (r : OilRow) : Month × String := (r.period_month, r.state_name)

/-- Merge key of a gas row: (period_month, state_name). -/
def gasKey (r : GasRow) : Month × String := (r.period_month, r.state_name)

/-- Whether a list of merge keys contains a duplicate. -/
def hasDupKeys : List (Month × String) → Bool
  | [] => false
  | k :: ks => ks.contains k || hasDupKeys ks

/-- The combined row produced for an oil row by the outer merge: its gas
measure comes from the matching gas row if one exists, else null. -/
def pairOfOil (gas : List GasRow) (o : OilRow) : PairRow :=
  { period_month := o.period_month, state_name := o.state_name,
    oil_bbl := o.oil_bbl,
    gas_mcf := match gas.find? (fun g => decide (gasKey g = oilKey o)) with
               | some g => g.gas_mcf
               | none => none }

/-- The combined row produced for a gas row with no oil match: oil
measure null. -/
def pairOfGasOnly (g : GasRow) : PairRow :=
  { period_month := g.period_month, state_name := g.state_name,
    oil_bbl := none, gas_mcf := g.gas_mcf }

/-- src/etl/loaders/eia.py load_eia_pair merge step: pd.merge with
how=outer and validate=one_to_one on (period_month, state_name), applied
to the two loaded single-measure tables.  Duplicate merge keys on either
side raise pandas MergeError instead of returning a table. -/
def mergeOuterOneToOne (oil : List OilRow) (gas : List GasRow) :
    Except String (List PairRow) :=
  if hasDupKeys (oil.map oilKey) || hasDupKeys (gas.map gasKey) then
    .error ("MergeError: merge keys are not unique in either dataset")
  else
    .ok (oil.map (pairOfOil gas)
         ++ (gas.filter
              (fun g => !(oil.any (fun o => decide (oilKey o = gasKey g))))).map
            pairOfGasOnly)

/-- src/etl/loaders/eia.py load_eia_pair applied to the two loaded
single-measure tables: outer one-to-one merge, then the final
deterministic sort. -/
def load_eia_pair (oil : List OilRow) (gas : List GasRow) :
    Except String (List PairRow) :=
  match mergeOuterOneToOne oil gas with
  | .error e => .error e
  | .ok merged => .ok (merged.mergeSort pairRowLe)

/-! The relational store and src/etl/pipelines/load_all.py -/

/-- A row of dim_state (seeded by schema.sql). -/
structure StateRow where
  state_id : Nat
  state_code : String
  state_name : String
deriving DecidableEq, Repr

/-- A row of fact_state_production_monthly. -/
structure FactRow where
  state_id : Nat
  period_month : Month
  oil_bbl : Option ℚ
  gas_mcf : Option ℚ
  source : String
  load_ts : String
deriving DecidableEq, Repr

/-- A row of dim_operator. -/
structure OperatorRow where
  operator_id : Nat
  operator_name : String
deriving DecidableEq, Repr

/-- A row of dim_well_status. -/
structure StatusRow where
  status_id : Nat
  status_desc : String
deriving DecidableEq, Repr

/-- A row of dim_county. -/
structure CountyRow where
  county_id : Nat
  state_id : Nat
  county_name : String
deriving DecidableEq, Repr

/-- A row of dim_well, UNIQUE on source_well_id. -/
structure WellRow where
  source_well_id : String
  well_name : String
  state_id : Nat
  county_id : Option Nat
  operator_id : Option Nat
  status_id : Option Nat
  latitude : Option ℚ
  longitude : Option ℚ
  spud_date : Option String
  last_updated : Option String
deriving DecidableEq, Repr

/-- A row of the wells_df input of load_dimensions_and_fact (the shape
produced by load_nysdec; nullable columns are Option).  The state_code
column is not read by load_dimensions_and_fact and is omitted. -/
structure WellsInputRow where
  source_well_id : Option String
  well_name : String
  county_name : Option String
  operator_name : Option String
  status_desc : Option String
  latitude : Option ℚ
  longitude : Option ℚ
  spud_date : Option String
  last_updated : Option String
  coord_valid : Bool
deriving DecidableEq, Repr

/-- The SQLite store as typed row lists. -/
structure Store where
  dim_state : List StateRow
  fact : List FactRow
  dim_operator : List OperatorRow
  dim_well_status : List StatusRow
  dim_county : List CountyRow
  dim_well : List WellRow
deriving DecidableEq, Repr

/-- SELECT state_id FROM dim_state joined by state_name (first match, as
the seeded names are unique). -/
def lookup_state_id (dim_state : List StateRow) (name : String) : Option Nat :=
  (dim_state.find? (fun s => decide (s.state_name = name))).map
    (fun s => s.state_id)

/-- SELECT state_id FROM dim_state WHERE state_code matches. -/
def lookup_state_by_code (dim_state : List StateRow) (code : String) :
    Option Nat :=
  (dim_state.find? (fun s => decide (s.state_code = code))).map
    (fun s => s.state_id)

/-- The fact rows the run will write: each eia_df row joined to dim_state
by state_name; rows whose name does not resolve are dropped (lenient
policy of load_all.py), resolved rows carry source EIA and the run
timestamp. -/
def resolvedFactRows (dim_state : List StateRow) (eia : List PairRow)
    (ts : String) : List FactRow :=
  eia.filterMap (fun r =>
    (lookup_state_id dim_state r.state_name).map (fun sid =>
      { state_id := sid, period_month := r.period_month,
        oil_bbl := r.oil_bbl, gas_mcf := r.gas_mcf,
        source := ("EIA"), load_ts := ts }))

/-- pandas drop_duplicates keeping the first occurrence, with an
accumulator of already seen values. -/
def dedupFirstGo (seen : List String) : List String → List String
  | [] => []
  | x :: xs =>
      if seen.contains x then dedupFirstGo seen xs
      else x :: dedupFirstGo (x :: seen) xs

/-- pandas drop_duplicates keeping the first occurrence. -/
def dedupFirst (l : List String) : List String := dedupFirstGo [] l

/-- The deduplicated unmapped state names printed in the WARN message of
load_all.py. -/
def unmapped_state_names (dim_state : List StateRow) (eia : List PairRow) :
    List String :=
  dedupFirst ((eia.filter
    (fun r => (lookup_state_id dim_state r.state_name).isNone)).map
    (fun r => r.state_name))

/-- Whether a fact row has the given (state_id, period_month) key. -/
def factKeyMatches (f : FactRow) (sid : Nat) (p : Month) : Bool :=
  decide (f.state_id = sid) && decide (f.period_month = p)

/-- INSERT ... ON CONFLICT(state_id, period_month) DO UPDATE: replace the
existing row with the excluded row (all non-key columns are overwritten),
else append. -/
def upsertFact (fact : List FactRow) (r : FactRow) : List FactRow :=
  match fact with
  | [] => [r]
  | f :: fs =>
      if factKeyMatches f r.state_id r.period_month then r :: fs
      else f :: upsertFact fs r

/-- Generic INSERT OR IGNORE: insert the freshly built row unless a row
already matching the natural value is present. -/
def insertIfAbsent {R V : Type} (p : V → R → Bool) (mk : List R → V → R)
    (d : List R) (v : V) : List R :=
  if d.any (p v) then d else d ++ [mk d v]

/-- Next surrogate key for dim_operator (SQLite autoincrement). -/
def nextOperatorId (d : List OperatorRow) : Nat :=
  (d.map (fun o => o.operator_id)).foldl max 0 + 1

/-- Next surrogate key for dim_well_status. -/
def nextStatusId (d : List StatusRow) : Nat :=
  (d.map (fun t => t.status_id)).foldl max 0 + 1

/-- Next surrogate key for dim_county. -/
def nextCountyId (d : List CountyRow) : Nat :=
  (d.map (fun c => c.county_id)).foldl max 0 + 1

/-- INSERT OR IGNORE INTO dim_operator(operator_name). -/
def insertOperator : List OperatorRow → String → List OperatorRow :=
  insertIfAbsent (fun name o => decide (o.operator_name = name))
    (fun d name => { operator_id := nextOperatorId d, operator_name := name })

/-- INSERT OR IGNORE INTO dim_well_status(status_desc). -/
def insertStatus : List StatusRow → String → List StatusRow :=
  insertIfAbsent (fun desc t => decide (t.status_desc = desc))
    (fun d desc => { status_id := nextStatusId d, status_desc := desc })

/-- INSERT OR IGNORE INTO dim_county(state_id, county_name) for the given
state. -/
def insertCounty (sid : Nat) : List CountyRow → String → List CountyRow :=
  insertIfAbsent
    (fun name c => decide (c.state_id = sid) && decide (c.county_name = name))
    (fun d name =>
      { county_id := nextCountyId d, state_id := sid, county_name := name })

/-- INSERT OR IGNORE INTO dim_well, unique by source_well_id. -/
def insertWellIgnore : List WellRow → WellRow → List WellRow :=
  insertIfAbsent (fun r w => decide (w.source_well_id = r.source_well_id))
    (fun _ r => r)

/-- wells_df operator_name dropna + drop_duplicates + the `if o` truthy
filter of the executemany argument list. -/
def observed_operators (wells : List WellsInputRow) : List String :=
  (dedupFirst (wells.filterMap (fun w => w.operator_name))).filter
    (fun o => decide (0 < o.length))

/-- wells_df status_desc dropna + drop_duplicates + truthy filter. -/
def observed_statuses (wells : List WellsInputRow) : List String :=
  (dedupFirst (wells.filterMap (fun w => w.status_desc))).filter
    (fun t => decide (0 < t.length))

/-- wells_df county_name dropna + drop_duplicates + truthy filter. -/
def observed_counties (wells : List WellsInputRow) : List String :=
  (dedupFirst (wells.filterMap (fun w => w.county_name))).filter
    (fun c => decide (0 < c.length))

/-- The natural-key filter of load_all.py: keep a wells_df row iff
source_well_id is neither NaN nor the empty string. -/
def wellKeyKept (w : WellsInputRow) : Bool :=
  match w.source_well_id with
  | none => false
  | some s => decide (0 < s.length)

/-- The operator_name to operator_id dictionary read back from
dim_operator. -/
def op_map (d : List OperatorRow) (name : String) : Option Nat :=
  (d.find? (fun o => decide (o.operator_name = name))).map
    (fun o => o.operator_id)

/-- The status_desc to status_id dictionary read back from
dim_well_status. -/
def st_map (d : List StatusRow) (desc : String) : Option Nat :=
  (d.find? (fun t => decide (t.status_desc = desc))).map
    (fun t => t.status_id)

/-- The county_name to county_id dictionary read back from dim_county
restricted to the given state_id. -/
def c_map (d : List CountyRow) (sid : Nat) (name : String) : Option Nat :=
  ((d.filter (fun c => decide (c.state_id = sid))).find?
      (fun c => decide (c.county_name = name))).map
    (fun c => c.county_id)

/-- dim_operator after the INSERT OR IGNORE loop of the run. -/
def dimOperatorAfter (s : Store) (wells : List WellsInputRow) :
    List OperatorRow :=
  (observed_operators wells).foldl insertOperator s.dim_operator

/-- dim_well_status after the INSERT OR IGNORE loop of the run. -/
def dimStatusAfter (s : Store) (wells : List WellsInputRow) :
    List StatusRow :=
  (observed_statuses wells).foldl insertStatus s.dim_well_status

/-- dim_county after the INSERT OR IGNORE loop of the run. -/
def dimCountyAfter (s : Store) (wells : List WellsInputRow) (ny_id : Nat) :
    List CountyRow :=
  (observed_counties wells).foldl (insertCounty ny_id) s.dim_county

/-- fact_state_production_monthly after the upsert loop of the run. -/
def factAfter (s : Store) (eia : List PairRow) (ts : String) : List FactRow :=
  (resolvedFactRows s.dim_state eia ts).foldl upsertFact s.fact

/-- One dim_well row built from a wells_df row: foreign keys attached
through the dictionaries read back from the refreshed dimensions; a value
absent from its dictionary yields a null foreign key. -/
def mkWellRow (dOp : List OperatorRow) (dSt : List StatusRow)
    (dC : List CountyRow) (ny_id : Nat) (w : WellsInputRow) : WellRow :=
  { source_well_id := w.source_well_id.getD ("")
  , well_name := w.well_name
  , state_id := ny_id
  , county_id := w.county_name.bind (c_map dC ny_id)
  , operator_id := w.operator_name.bind (op_map dOp)
  , status_id := w.status_desc.bind (st_map dSt)
  , latitude := w.latitude
  , longitude := w.longitude
  , spud_date := w.spud_date
  , last_updated := w.last_updated }

/-- The dim_well rows the run attempts to insert: natural-key filter,
then foreign-key attachment (the two steps commute; the code attaches
first and filters second). -/
def wellRowsOf (s : Store) (wells : List WellsInputRow) (ny_id : Nat) :
    List WellRow :=
  (wells.filter wellKeyKept).map
    (mkWellRow (dimOperatorAfter s wells) (dimStatusAfter s wells)
      (dimCountyAfter s wells ny_id) ny_id)

/-- dim_well after the INSERT OR IGNORE loop of the run. -/
def dimWellAfter (s : Store) (wells : List WellsInputRow) (ny_id : Nat) :
    List WellRow :=
  (wellRowsOf s wells ny_id).foldl insertWellIgnore s.dim_well

/-- The store carrying all writes of one successful run. -/
def storeAfter (s : Store) (eia : List PairRow) (wells : List WellsInputRow)
    (ts : String) (ny_id : Nat) : Store :=
  { s with
    fact := factAfter s eia ts
    dim_operator := dimOperatorAfter s wells
    dim_well_status := dimStatusAfter s wells
    dim_county := dimCountyAfter s wells ny_id
    dim_well := dimWellAfter s wells ny_id }

/-- src/etl/pipelines/load_all.py load_dimensions_and_fact: the committed
effect of one run.  The only raise of the function is the missing NY seed
row (RuntimeError); all writes are pending on one cursor until the single
conn.commit() at the end, so the committed result is either the whole new
store or an error carrying no writes. -/
def load_dimensions_and_fact (s : Store) (eia : List PairRow)
    (wells : List WellsInputRow) (ts : String) : Except String Store :=
  match lookup_state_by_code s.dim_state ("NY") with
  | none => .error ("NY state not found in dim_state")
  | some ny_id => .ok (storeAfter s eia wells ts ny_id)

/-- src/etl/main.py: the run happens inside the sqlite3 connection
context manager, which commits on success and rolls back on exception, so
a failed run leaves the store exactly as it was. -/
def run_pipeline (s : Store) (eia : List PairRow)
    (wells : List WellsInputRow) (ts : String) : Store :=
  match load_dimensions_and_fact s eia wells ts with
  | .ok s2 => s2
  | .error _ => s

/-- A fact row with its load_ts blanked, for comparisons up to the load
timestamp. -/
def stripTs (f : FactRow) : FactRow := { f with load_ts := ("") }

/-- First fact row with the given key (at most one exists in the real
table by its UNIQUE constraint). -/
def findFact (fact : List FactRow) (sid : Nat) (p : Month) : Option FactRow :=
  fact.find? (fun f => factKeyMatches f sid p)

end OilGas

namespace OilGas

/-! Helper lemmas -/

theorem any_insertIfAbsent {R V : Type} (p : V → R → Bool) (mk : List R → V → R)
    (d : List R) (v : V) (q : R → Bool) (h : d.any q = true) :
    (insertIfAbsent p mk d v).any q = true := by
  unfold insertIfAbsent
  split
  · exact h
  · simp [List.any_append, h]

theorem any_insertIfAbsent_self {R V : Type} (p : V → R → Bool)
    (mk : List R → V → R) (hmk : ∀ d v, p v (mk d v) = true)
    (d : List R) (v : V) :
    (insertIfAbsent p mk d v).any (p v) = true := by
  unfold insertIfAbsent
  split
  · assumption
  · simp [List.any_append, hmk]

theorem any_foldl_insertIfAbsent {R V : Type} (p : V → R → Bool)
    (mk : List R → V → R) (vs : List V) (d : List R) (q : R → Bool)
    (h : d.any q = true) :
    (vs.foldl (insertIfAbsent p mk) d).any q = true := by
  induction vs generalizing d with
  | nil => exact h
  | cons v ws ih => exact ih _ (any_insertIfAbsent p mk d v q h)

theorem any_foldl_insertIfAbsent_of_mem {R V : Type} (p : V → R → Bool)
    (mk : List R → V → R) (hmk : ∀ d v, p v (mk d v) = true)
    (vs : List V) (d : List R) (v : V) (hv : v ∈ vs) :
    (vs.foldl (insertIfAbsent p mk) d).any (p v) = true := by
  induction vs generalizing d with
  | nil => cases hv
  | cons w ws ih =>
      rcases List.mem_cons.mp hv with h | h
      · subst h
        exact any_foldl_insertIfAbsent p mk ws _ _
          (any_insertIfAbsent_self p mk hmk d v)
      · exact ih _ h

theorem foldl_insertIfAbsent_noop {R V : Type} (p : V → R → Bool)
    (mk : List R → V → R) (vs : List V) (d : List R)
    (h : ∀ v ∈ vs, d.any (p v) = true) :
    vs.foldl (insertIfAbsent p mk) d = d := by
  induction vs with
  | nil => rfl
  | cons v ws ih =>
      have hd : insertIfAbsent p mk d v = d := by
        unfold insertIfAbsent
        simp [h v (List.mem_cons_self v ws)]
      rw [List.foldl_cons, hd]
      exact ih (fun w hw => h w (List.mem_cons_of_mem v hw))

theorem foldl_insertIfAbsent_idem {R V : Type} (p : V → R → Bool)
    (mk : List R → V → R) (hmk : ∀ d v, p v (mk d v) = true)
    (vs : List V) (d : List R) :
    vs.foldl (insertIfAbsent p mk) (vs.foldl (insertIfAbsent p mk) d)
      = vs.foldl (insertIfAbsent p mk) d :=
  foldl_insertIfAbsent_noop p mk vs _
    (fun v hv => any_foldl_insertIfAbsent_of_mem p mk hmk vs d v hv)

theorem mem_foldl_insertIfAbsent {R V : Type} (p : V → R → Bool)
    (mk : List R → V → R) (Q : R → V → Prop) (hQ : ∀ d v, Q (mk d v) v)
    (vs : List V) (d : List R) (r : R)
    (hr : r ∈ vs.foldl (insertIfAbsent p mk) d) :
    r ∈ d ∨ ∃ v ∈ vs, Q r v := by
  induction vs generalizing d with
  | nil => exact Or.inl hr
  | cons v ws ih =>
      rcases ih _ hr with h | ⟨w, hw, hq⟩
      · unfold insertIfAbsent at h
        split at h
        · exact Or.inl h
        · rcases List.mem_append.mp h with h | h
          · exact Or.inl h
          · refine Or.inr ⟨v, List.mem_cons_self v ws, ?_⟩
            rcases List.mem_singleton.mp h with rfl
            exact hQ d v
      · exact Or.inr ⟨w, List.mem_cons_of_mem v hw, hq⟩

theorem mem_dedupFirstGo (l : List String) :
    ∀ (seen : List String) (x : String),
      x ∈ dedupFirstGo seen l ↔ x ∈ l ∧ x ∉ seen := by
  induction l with
  | nil => intro seen x; simp [dedupFirstGo]
  | cons y ys ih =>
      intro seen x
      cases hy : seen.contains y with
      | true =>
          have hys : y ∈ seen := by simpa using hy
          rw [show dedupFirstGo seen (y :: ys) = dedupFirstGo seen ys from by
                simp only [dedupFirstGo]
                rw [if_pos hy],
              ih]
          simp only [List.mem_cons]
          constructor
          · rintro ⟨hx, hns⟩; exact ⟨Or.inr hx, hns⟩
          · rintro ⟨hx | hx, hns⟩
            · exact absurd (hx ▸ hys) hns
            · exact ⟨hx, hns⟩
      | false =>
          have hyn : y ∉ seen := by simpa using hy
          rw [show dedupFirstGo seen (y :: ys)
                = y :: dedupFirstGo (y :: seen) ys from by
                simp only [dedupFirstGo]
                rw [if_neg (by rw [hy]; exact Bool.false_ne_true)]]
          simp only [List.mem_cons, ih]
          constructor
          · rintro (rfl | ⟨hx, hns⟩)
            · exact ⟨Or.inl rfl, hyn⟩
            · exact ⟨Or.inr hx, fun hc => hns (Or.inr hc)⟩
          · rintro ⟨rfl | hx, hns⟩
            · exact Or.inl rfl
            · by_cases hxy : x = y
              · exact Or.inl hxy
              · exact Or.inr ⟨hx, fun hc => hc.elim hxy hns⟩

theorem mem_dedupFirst (l : List String) (x : String) :
    x ∈ dedupFirst l ↔ x ∈ l := by
  simpa [dedupFirst] using mem_dedupFirstGo l [] x

theorem factKeyMatches_eq_true (f : FactRow) (sid : Nat) (p : Month) :
    factKeyMatches f sid p = true ↔ f.state_id = sid ∧ f.period_month = p := by
  simp [factKeyMatches]

theorem findFact_cons (f : FactRow) (fs : List FactRow) (sid : Nat)
    (p : Month) :
    findFact (f :: fs) sid p
      = if factKeyMatches f sid p = true then some f else findFact fs sid p := by
  by_cases h : factKeyMatches f sid p = true
  · rw [if_pos h]
    exact List.find?_cons_of_pos _ h
  · rw [if_neg h]
    exact List.find?_cons_of_neg _ (by simpa using h)

theorem findFact_upsertFact (F : List FactRow) (r : FactRow) (sid : Nat)
    (p : Month) :
    findFact (upsertFact F r) sid p
      = if factKeyMatches r sid p = true then some r else findFact F sid p := by
  induction F with
  | nil =>
      show findFact [r] sid p = _
      rw [findFact_cons]
  | cons f fs ih =>
      by_cases hf : factKeyMatches f r.state_id r.period_month = true
      · have hkey := (factKeyMatches_eq_true f r.state_id r.period_month).mp hf
        have hstep : upsertFact (f :: fs) r = r :: fs := by
          simp only [upsertFact]
          rw [if_pos hf]
        rw [hstep, findFact_cons, findFact_cons]
        by_cases hr : factKeyMatches r sid p = true
        · rw [if_pos hr, if_pos hr]
        · have hfm : ¬ factKeyMatches f sid p = true := by
            intro hc
            rcases (factKeyMatches_eq_true f sid p).mp hc with ⟨h1, h2⟩
            exact hr ((factKeyMatches_eq_true r sid p).mpr
              ⟨hkey.1 ▸ h1, hkey.2 ▸ h2⟩)
          rw [if_neg hr, if_neg hr, if_neg hfm]
      · have hstep : upsertFact (f :: fs) r = f :: upsertFact fs r := by
          simp only [upsertFact]
          rw [if_neg hf]
        rw [hstep, findFact_cons, ih, findFact_cons]
        by_cases hfm : factKeyMatches f sid p = true
        · have hr : ¬ factKeyMatches r sid p = true := by
            intro hc
            rcases (factKeyMatches_eq_true f sid p).mp hfm with ⟨h1, h2⟩
            rcases (factKeyMatches_eq_true r sid p).mp hc with ⟨h3, h4⟩
            exact hf ((factKeyMatches_eq_true f r.state_id r.period_month).mpr
              ⟨h3 ▸ h1, h4 ▸ h2⟩)
          rw [if_pos hfm, if_neg hr, if_pos hfm]
        · rw [if_neg hfm, if_neg hfm]

theorem findFact_foldl_upsertFact (rs : List FactRow) (F : List FactRow)
    (sid : Nat) (p : Month) :
    findFact (rs.foldl upsertFact F) sid p
      = (rs.reverse.find? (fun r => factKeyMatches r sid p)).or
          (findFact F sid p) := by
  induction rs generalizing F with
  | nil => simp
  | cons r rs ih =>
      rw [List.foldl_cons, ih, List.reverse_cons, List.find?_append,
          Option.or_assoc]
      congr 1
      rw [findFact_upsertFact]
      by_cases hr : factKeyMatches r sid p = true
      · have h1 : ([r].find? (fun q => factKeyMatches q sid p)) = some r :=
          List.find?_cons_of_pos _ hr
        rw [if_pos hr, h1]
        rfl
      · have h1 : ([r].find? (fun q => factKeyMatches q sid p))
            = (([] : List FactRow).find? (fun q => factKeyMatches q sid p)) :=
          List.find?_cons_of_neg _ (by simpa using hr)
        rw [if_neg hr, h1]
        rfl

theorem resolvedFactRows_retimestamp (ds : List StateRow) (eia : List PairRow)
    (t1 t2 : String) :
    resolvedFactRows ds eia t2
      = (resolvedFactRows ds eia t1).map (fun f => { f with load_ts := t2 }) := by
  induction eia with
  | nil => rfl
  | cons r rs ih =>
      simp only [resolvedFactRows, List.filterMap_cons] at ih ⊢
      cases h : lookup_state_id ds r.state_name with
      | none => simpa [h] using ih
      | some sid => simpa [h] using ih

theorem find?_reverse_map_retimestamp (rs : List FactRow) (t : String)
    (sid : Nat) (p : Month) :
    ((rs.map (fun f => { f with load_ts := t })).reverse).find?
        (fun r => factKeyMatches r sid p)
      = (rs.reverse.find? (fun r => factKeyMatches r sid p)).map
          (fun f => { f with load_ts := t }) := by
  rw [← List.map_reverse, List.find?_map]
  rfl

/-! Claim theorems -/

/-- C1: the loaders compute monthly volume as daily rate * 1000 *
days_in_month for non-null rates, null gives null (never zero), uniformly
for both measures; rate 10 in a 30-day month gives 300000. -/
theorem c1_monthly_volume_conversion :
    (∀ (p : Month) (r : ℚ),
        kbpd_to_bbl p (some r) = some (r * 1000 * (days_in_period_month p : ℚ))
      ∧ mmcfd_to_mcf p (some r) = some (r * 1000 * (days_in_period_month p : ℚ)))
  ∧ (∀ p : Month, kbpd_to_bbl p none = none ∧ mmcfd_to_mcf p none = none)
  ∧ (∀ (p : Month) (v : Option ℚ), kbpd_to_bbl p v = mmcfd_to_mcf p v)
  ∧ kbpd_to_bbl ⟨2024, 4⟩ (some 10) = some 300000 := by
  refine ⟨fun p r => ⟨rfl, rfl⟩, fun p => ⟨rfl, rfl⟩, fun p v => ?_, ?_⟩
  · cases v <;> rfl
  · show some ((10 : ℚ) * 1000 * ((days_in_period_month ⟨2024, 4⟩ : Nat) : ℚ)) = some 300000
    norm_num [days_in_period_month]

/-- C2 counterexample: the upsert overwrites load_ts with the new run
timestamp, so a second identical run with a later wall clock leaves the
fact table different from the result of the first run — the store is not
byte-identical. -/
theorem c2_counterexample :
    run_pipeline
        (run_pipeline
          { dim_state := [⟨1, ("NY"), ("New York")⟩], fact := [],
            dim_operator := [], dim_well_status := [], dim_county := [],
            dim_well := [] }
          [({ period_month := ⟨2024, 1⟩, state_name := ("New York"),
              oil_bbl := some 10, gas_mcf := none } : PairRow)] []
          ("2024-01-01 00:00:00"))
        [({ period_month := ⟨2024, 1⟩, state_name := ("New York"),
            oil_bbl := some 10, gas_mcf := none } : PairRow)] []
        ("2024-01-02 00:00:00")
      ≠ run_pipeline
          { dim_state := [⟨1, ("NY"), ("New York")⟩], fact := [],
            dim_operator := [], dim_well_status := [], dim_county := [],
            dim_well := [] }
          [({ period_month := ⟨2024, 1⟩, state_name := ("New York"),
              oil_bbl := some 10, gas_mcf := none } : PairRow)] []
          ("2024-01-01 00:00:00") := by
  decide

/-- C2 amended: a second run on identical inputs leaves dim_well exactly
unchanged, and leaves every fact row unchanged except for load_ts, which
is refreshed to the timestamp of the second run: for every (state_id,
period_month) key the fact rows of the two stores agree after blanking
load_ts. -/
theorem c2_amended_idempotent_up_to_load_ts :
    ∀ (s : Store) (eia : List PairRow) (wells : List WellsInputRow)
      (t1 t2 : String),
      (run_pipeline (run_pipeline s eia wells t1) eia wells t2).dim_well
          = (run_pipeline s eia wells t1).dim_well
      ∧ ∀ (sid : Nat) (p : Month),
          (findFact (run_pipeline (run_pipeline s eia wells t1) eia wells t2).fact
              sid p).map stripTs
            = (findFact (run_pipeline s eia wells t1).fact sid p).map stripTs := by
  intro s eia wells t1 t2
  cases hNY : lookup_state_by_code s.dim_state ("NY") with
  | none =>
      have h1 : run_pipeline s eia wells t1 = s := by
        simp [run_pipeline, load_dimensions_and_fact, hNY]
      have h2 : run_pipeline s eia wells t2 = s := by
        simp [run_pipeline, load_dimensions_and_fact, hNY]
      rw [h1, h2]
      exact ⟨rfl, fun sid p => rfl⟩
  | some ny =>
      have hNY2 : lookup_state_by_code
          (storeAfter s eia wells t1 ny).dim_state ("NY") = some ny := hNY
      have h1 : run_pipeline s eia wells t1 = storeAfter s eia wells t1 ny := by
        simp [run_pipeline, load_dimensions_and_fact, hNY]
      have h2 : run_pipeline (storeAfter s eia wells t1 ny) eia wells t2
          = storeAfter (storeAfter s eia wells t1 ny) eia wells t2 ny := by
        simp [run_pipeline, load_dimensions_and_fact, hNY2]
      have hOpIdem : dimOperatorAfter (storeAfter s eia wells t1 ny) wells
          = dimOperatorAfter s wells := by
        show (observed_operators wells).foldl insertOperator
              ((observed_operators wells).foldl insertOperator s.dim_operator)
            = (observed_operators wells).foldl insertOperator s.dim_operator
        exact foldl_insertIfAbsent_idem _ _ (fun _ _ => by simp) _ _
      have hStIdem : dimStatusAfter (storeAfter s eia wells t1 ny) wells
          = dimStatusAfter s wells := by
        show (observed_statuses wells).foldl insertStatus
              ((observed_statuses wells).foldl insertStatus s.dim_well_status)
            = (observed_statuses wells).foldl insertStatus s.dim_well_status
        exact foldl_insertIfAbsent_idem _ _ (fun _ _ => by simp) _ _
      have hCIdem : dimCountyAfter (storeAfter s eia wells t1 ny) wells ny
          = dimCountyAfter s wells ny := by
        show (observed_counties wells).foldl (insertCounty ny)
              ((observed_counties wells).foldl (insertCounty ny) s.dim_county)
            = (observed_counties wells).foldl (insertCounty ny) s.dim_county
        exact foldl_insertIfAbsent_idem _ _ (fun _ _ => by simp) _ _
      have hRowsEq : wellRowsOf (storeAfter s eia wells t1 ny) wells ny
          = wellRowsOf s wells ny := by
        simp only [wellRowsOf, hOpIdem, hStIdem, hCIdem]
      have hWellsIdem : dimWellAfter (storeAfter s eia wells t1 ny) wells ny
          = dimWellAfter s wells ny := by
        simp only [dimWellAfter, hRowsEq]
        show (wellRowsOf s wells ny).foldl insertWellIgnore
              ((wellRowsOf s wells ny).foldl insertWellIgnore s.dim_well)
            = (wellRowsOf s wells ny).foldl insertWellIgnore s.dim_well
        exact foldl_insertIfAbsent_idem _ _ (fun _ _ => by simp) _ _
      constructor
      · rw [h1, h2]
        exact hWellsIdem
      · intro sid p
        rw [h1, h2]
        show (findFact
            (factAfter (storeAfter s eia wells t1 ny) eia t2) sid p).map stripTs
          = (findFact (factAfter s eia t1) sid p).map stripTs
        have hL : findFact
              (factAfter (storeAfter s eia wells t1 ny) eia t2) sid p
            = ((resolvedFactRows s.dim_state eia t2).reverse.find?
                (fun r => factKeyMatches r sid p)).or
                (findFact (factAfter s eia t1) sid p) :=
          findFact_foldl_upsertFact (resolvedFactRows s.dim_state eia t2)
            (factAfter s eia t1) sid p
        have hR : findFact (factAfter s eia t1) sid p
            = ((resolvedFactRows s.dim_state eia t1).reverse.find?
                (fun r => factKeyMatches r sid p)).or (findFact s.fact sid p) :=
          findFact_foldl_upsertFact (resolvedFactRows s.dim_state eia t1)
            s.fact sid p
        rw [hL, resolvedFactRows_retimestamp s.dim_state eia t1 t2,
            find?_reverse_map_retimestamp, hR]
        cases hfind : (resolvedFactRows s.dim_state eia t1).reverse.find?
            (fun r => factKeyMatches r sid p) with
        | none => simp
        | some r0 => simp [stripTs, Option.or]


/-- C4 counterexample: with the allow-list containing the aggregate name
U.S., the claim says membership in the allow-list alone decides
inclusion, so the name is kept; _filter_states nevertheless removes it,
because the aggregate exclusion is applied after the include filter. -/
theorem c4_counterexample :
    ¬ (("U.S.") ∈ filter_states [("U.S.")] (some [("U.S.")])) := by
  decide

/-- C4 amended: a name is kept exactly when it passes the allow-list
filter (whenever the allow-list argument is truthy) AND is not in the
fixed aggregate-exclusion set; the aggregate exclusion applies even when
an allow-list is provided.  The same predicate is the row-level mask the
production loaders use. -/
theorem c4_amended_filter_states :
    (∀ (x : String) (s : List String) (inc : Option (List String)),
        x ∈ filter_states s inc
          ↔ x ∈ s
            ∧ (includeTruthy inc = true → (inc.getD []).contains x = true)
            ∧ x ∉ EXCLUDE_AGGREGATES)
  ∧ (∀ (inc : Option (List String)) (x : String),
        eiaRowKept inc x = true
          ↔ (includeTruthy inc = true → (inc.getD []).contains x = true)
            ∧ x ∉ EXCLUDE_AGGREGATES) := by
  constructor
  · intro x s inc
    by_cases h : includeTruthy inc = true
    · simp [filter_states, h, List.mem_filter, and_assoc]
      tauto
    · simp [filter_states, h, List.mem_filter,
            Bool.not_eq_true (includeTruthy inc) ▸ h]
  · intro inc x
    by_cases h : includeTruthy inc = true
    · simp [eiaRowKept, h]
    · simp [eiaRowKept, h]

/-- C5: the claim is right and the code has a slip: a registry row whose
API_WellNo is missing gets source_well_id astype(str) = the literal
string nan, which passes the non-empty natural-key filter of
load_all.py, so the row is NOT excluded from the dim_well insert. -/
theorem c5_null_api_wellno_passes_key_filter :
    nysdec_source_well_id none = ("nan")
    ∧ wellKeyKept
        { source_well_id := some (nysdec_source_well_id none)
        , well_name := ("w1"), county_name := none, operator_name := none
        , status_desc := none, latitude := none, longitude := none
        , spud_date := none, last_updated := none
        , coord_valid := false } = true := by
  exact ⟨rfl, rfl⟩

/-- C7: coord_valid is true iff both coordinates are present and within
the WGS84 bounds; it is false whenever either coordinate is missing; and
the two spec examples evaluate as stated. -/
theorem c7_coord_valid :
    (∀ (lat lon : Option ℚ),
        coord_valid lat lon = true
          ↔ (∃ la, lat = some la ∧ -90 ≤ la ∧ la ≤ 90)
            ∧ (∃ lo, lon = some lo ∧ -180 ≤ lo ∧ lo ≤ 180))
  ∧ (∀ lon : Option ℚ, coord_valid none lon = false)
  ∧ (∀ lat : Option ℚ, coord_valid lat none = false)
  ∧ coord_valid (some 200) (some 0) = false
  ∧ coord_valid (some 45) (some (-75)) = true := by
  refine ⟨fun lat lon => ?_, fun lon => ?_, fun lat => ?_, ?_, ?_⟩
  · cases lat <;> cases lon <;> simp [coord_valid]
    tauto
  · cases lon <;> simp [coord_valid]
  · cases lat <;> simp [coord_valid]
  · norm_num [coord_valid]
  · norm_num [coord_valid]

/-- C3: load_eia_pair merges the two single-measure tables with outer
one-to-one semantics: duplicate (entity, period_month) keys on either
side make the merge fail with an error instead of returning a table, and
a key present in exactly one side yields a combined row holding the measure
of that side and the other measure null (never a dropped row). -/
theorem c3_merge_outer_one_to_one :
    ∀ (oil : List OilRow) (gas : List GasRow),
      ((hasDupKeys (oil.map oilKey) = true ∨ hasDupKeys (gas.map gasKey) = true) →
          load_eia_pair oil gas
            = .error ("MergeError: merge keys are not unique in either dataset"))
      ∧ (∀ merged, load_eia_pair oil gas = .ok merged →
          (∀ o ∈ oil, (∀ g ∈ gas, gasKey g ≠ oilKey o) →
              ({ period_month := o.period_month, state_name := o.state_name,
                 oil_bbl := o.oil_bbl, gas_mcf := none } : PairRow) ∈ merged)
          ∧ (∀ g ∈ gas, (∀ o ∈ oil, oilKey o ≠ gasKey g) →
              ({ period_month := g.period_month, state_name := g.state_name,
                 oil_bbl := none, gas_mcf := g.gas_mcf } : PairRow) ∈ merged)) := by
  intro oil gas
  constructor
  · intro h
    have hc : (hasDupKeys (oil.map oilKey) || hasDupKeys (gas.map gasKey)) = true := by
      rcases h with h | h <;> simp [h]
    simp [load_eia_pair, mergeOuterOneToOne, hc]
  · intro merged hm
    by_cases hc : (hasDupKeys (oil.map oilKey) || hasDupKeys (gas.map gasKey)) = true
    · simp [load_eia_pair, mergeOuterOneToOne, hc] at hm
    · rw [Bool.not_eq_true] at hc
      simp only [load_eia_pair, mergeOuterOneToOne, hc, Bool.false_eq_true,
        if_false, Except.ok.injEq] at hm
      subst hm
      constructor
      · intro o ho hnog
        have hfind : gas.find? (fun g => decide (gasKey g = oilKey o)) = none := by
          refine List.find?_eq_none.mpr (fun g hg => ?_)
          simpa using hnog g hg
        refine List.mem_mergeSort.mpr (List.mem_append.mpr (Or.inl ?_))
        have hrow : pairOfOil gas o
            = { period_month := o.period_month, state_name := o.state_name,
                oil_bbl := o.oil_bbl, gas_mcf := none } := by
          simp [pairOfOil, hfind]
        exact hrow ▸ List.mem_map_of_mem (pairOfOil gas) ho
      · intro g hg hnoo
        refine List.mem_mergeSort.mpr (List.mem_append.mpr (Or.inr ?_))
        have hkeep : (!(oil.any (fun o => decide (oilKey o = gasKey g)))) = true := by
          simp only [Bool.not_eq_true', List.any_eq_false, decide_eq_true_eq]
          exact fun o ho => hnoo o ho
        have hrow : pairOfGasOnly g
            = { period_month := g.period_month, state_name := g.state_name,
                oil_bbl := none, gas_mcf := g.gas_mcf } := rfl
        exact hrow ▸ List.mem_map_of_mem pairOfGasOnly
          (List.mem_filter.mpr ⟨hg, hkeep⟩)

/-- C3 witness: a concrete oil-only key survives the outer merge with a
null gas measure, and a concrete duplicate oil key makes load_eia_pair
return the error. -/
theorem c3_merge_witness :
    ({ period_month := ⟨2024, 1⟩, state_name := ("Texas"),
       oil_bbl := some 5, gas_mcf := none } : PairRow)
      ∈ ([({ period_month := ⟨2024, 1⟩, state_name := ("Texas"),
             oil_bbl := some 5, gas_mcf := none } : PairRow)].mergeSort pairRowLe)
    ∧ load_eia_pair
        [({ period_month := ⟨2024, 1⟩, state_name := ("Texas"),
            oil_bbl := some 5 } : OilRow),
         ({ period_month := ⟨2024, 1⟩, state_name := ("Texas"),
            oil_bbl := some 6 } : OilRow)]
        ([] : List GasRow)
      = .error ("MergeError: merge keys are not unique in either dataset") := by
  constructor
  · exact ((c3_merge_outer_one_to_one
        [({ period_month := ⟨2024, 1⟩, state_name := ("Texas"),
            oil_bbl := some 5 } : OilRow)] ([] : List GasRow)).2
        _ rfl).1
      ({ period_month := ⟨2024, 1⟩, state_name := ("Texas"),
         oil_bbl := some 5 } : OilRow)
      (by simp) (by simp)
  · exact (c3_merge_outer_one_to_one _ _).1 (Or.inl (by decide))

/-- C6: the pipeline applies the lenient policy consistently to every
production row of a run: rows whose state_name resolves against the state
dimension are always loaded as fact rows; rows whose name does not
resolve contribute no fact row and their name appears in the collected
warning list; and the run never aborts because of an unmapped name (the
only error load_dimensions_and_fact can raise is the missing NY seed
row). -/
theorem c6_unmatched_state_lenient_policy :
    ∀ (s : Store) (eia : List PairRow) (wells : List WellsInputRow)
      (ts : String),
      (∀ r ∈ eia, ∀ sid, lookup_state_id s.dim_state r.state_name = some sid →
          ({ state_id := sid, period_month := r.period_month,
             oil_bbl := r.oil_bbl, gas_mcf := r.gas_mcf,
             source := ("EIA"), load_ts := ts } : FactRow)
            ∈ resolvedFactRows s.dim_state eia ts)
      ∧ (∀ r ∈ eia, lookup_state_id s.dim_state r.state_name = none →
          r.state_name ∈ unmapped_state_names s.dim_state eia)
      ∧ (∀ f ∈ resolvedFactRows s.dim_state eia ts,
          ∃ r ∈ eia, lookup_state_id s.dim_state r.state_name = some f.state_id)
      ∧ (∀ e, load_dimensions_and_fact s eia wells ts = .error e →
          lookup_state_by_code s.dim_state ("NY") = none) := by
  intro s eia wells ts
  refine ⟨?_, ?_, ?_, ?_⟩
  · intro r hr sid hsid
    refine List.mem_filterMap.mpr ⟨r, hr, ?_⟩
    rw [hsid]
    rfl
  · intro r hr hnone
    simp only [unmapped_state_names, mem_dedupFirst]
    exact List.mem_map_of_mem _ (List.mem_filter.mpr ⟨hr, by simp [hnone]⟩)
  · intro f hf
    rcases List.mem_filterMap.mp hf with ⟨r, hr, hfr⟩
    rcases Option.map_eq_some'.mp hfr with ⟨sid, hsid, hmk⟩
    refine ⟨r, hr, ?_⟩
    rw [hsid, ← hmk]
  · intro e he
    cases h : lookup_state_by_code s.dim_state ("NY") with
    | none => rfl
    | some ny => simp [load_dimensions_and_fact, h] at he

/-- C6 witness: with dim_state seeded only with New York, the New York
production row is loaded and the unknown name Atlantis lands in the
warning list. -/
theorem c6_policy_witness :
    ({ state_id := 1, period_month := ⟨2024, 2⟩, oil_bbl := some 3,
       gas_mcf := none, source := ("EIA"), load_ts := ("t0") } : FactRow)
      ∈ resolvedFactRows [⟨1, ("NY"), ("New York")⟩]
          [({ period_month := ⟨2024, 2⟩, state_name := ("New York"),
              oil_bbl := some 3, gas_mcf := none } : PairRow),
           ({ period_month := ⟨2024, 2⟩, state_name := ("Atlantis"),
              oil_bbl := none, gas_mcf := some 7 } : PairRow)] ("t0")
    ∧ ("Atlantis")
        ∈ unmapped_state_names [⟨1, ("NY"), ("New York")⟩]
            [({ period_month := ⟨2024, 2⟩, state_name := ("New York"),
                oil_bbl := some 3, gas_mcf := none } : PairRow),
             ({ period_month := ⟨2024, 2⟩, state_name := ("Atlantis"),
                oil_bbl := none, gas_mcf := some 7 } : PairRow)] := by
  constructor
  · exact (c6_unmatched_state_lenient_policy
        { dim_state := [⟨1, ("NY"), ("New York")⟩], fact := [],
          dim_operator := [], dim_well_status := [], dim_county := [],
          dim_well := [] } _ [] ("t0")).1
      ({ period_month := ⟨2024, 2⟩, state_name := ("New York"),
         oil_bbl := some 3, gas_mcf := none } : PairRow)
      (by simp) 1 rfl
  · exact (c6_unmatched_state_lenient_policy
        { dim_state := [⟨1, ("NY"), ("New York")⟩], fact := [],
          dim_operator := [], dim_well_status := [], dim_county := [],
          dim_well := [] } _ [] ("t0")).2.1
      ({ period_month := ⟨2024, 2⟩, state_name := ("Atlantis"),
         oil_bbl := none, gas_mcf := some 7 } : PairRow)
      (by simp) rfl

/-- C8: the relational writes of a run form one transaction scope: when
load_dimensions_and_fact errors, the rolled-back store equals its pre-run
state (even though the fact and dimension inserts precede the failing NY
lookup in program order, nothing is committed), and when it succeeds, the
committed store carries all writes of the run at once. -/
theorem c8_single_transaction_scope :
    ∀ (s : Store) (eia : List PairRow) (wells : List WellsInputRow)
      (ts : String),
      ((∃ e, load_dimensions_and_fact s eia wells ts = .error e) →
          run_pipeline s eia wells ts = s)
      ∧ (∀ s2, load_dimensions_and_fact s eia wells ts = .ok s2 →
          run_pipeline s eia wells ts = s2
          ∧ s2.fact = factAfter s eia ts
          ∧ s2.dim_operator = dimOperatorAfter s wells
          ∧ s2.dim_well_status = dimStatusAfter s wells
          ∧ ∃ ny_id, lookup_state_by_code s.dim_state ("NY") = some ny_id
              ∧ s2.dim_county = dimCountyAfter s wells ny_id
              ∧ s2.dim_well = dimWellAfter s wells ny_id) := by
  intro s eia wells ts
  cases h : lookup_state_by_code s.dim_state ("NY") with
  | none =>
      constructor
      · intro _
        simp [run_pipeline, load_dimensions_and_fact, h]
      · intro s2 h2
        simp [load_dimensions_and_fact, h] at h2
  | some ny =>
      constructor
      · rintro ⟨e, he⟩
        simp [load_dimensions_and_fact, h] at he
      · intro s2 h2
        simp only [load_dimensions_and_fact, h, Except.ok.injEq] at h2
        subst h2
        exact ⟨by simp [run_pipeline, load_dimensions_and_fact, h],
               rfl, rfl, rfl, ny, rfl, rfl, rfl⟩

/-- C8 witness: a store missing the NY seed row makes the run fail, and
the rolled-back store is byte-identical to the pre-run store although a
resolvable fact row was pending. -/
theorem c8_transaction_witness :
    run_pipeline
        { dim_state := [⟨1, ("TX"), ("Texas")⟩], fact := [],
          dim_operator := [], dim_well_status := [], dim_county := [],
          dim_well := [] }
        [({ period_month := ⟨2024, 3⟩, state_name := ("Texas"),
            oil_bbl := some 2, gas_mcf := none } : PairRow)] [] ("t1")
      = { dim_state := [⟨1, ("TX"), ("Texas")⟩], fact := [],
          dim_operator := [], dim_well_status := [], dim_county := [],
          dim_well := [] } :=
  (c8_single_transaction_scope _ _ _ _).1 ⟨_, rfl⟩

/-- C10: provided the pre-run dimensions carry no empty names, the run
never inserts an empty operator/status/county value into its dimension;
every dim_well row after the run is either pre-existing or has each
foreign key null or referencing a dimension row of the resulting store; and a
kept well row carrying an empty value is still inserted, with a null
foreign key for that attribute. -/
theorem c10_no_empty_dims_no_dangling_fk :
    ∀ (s : Store) (wells : List WellsInputRow) (ny_id : Nat),
      (∀ o ∈ s.dim_operator, ¬ o.operator_name = ("")) →
      (∀ t ∈ s.dim_well_status, ¬ t.status_desc = ("")) →
      (∀ c ∈ s.dim_county, ¬ c.county_name = ("")) →
      ((∀ o ∈ dimOperatorAfter s wells, ¬ o.operator_name = (""))
        ∧ (∀ t ∈ dimStatusAfter s wells, ¬ t.status_desc = (""))
        ∧ (∀ c ∈ dimCountyAfter s wells ny_id, ¬ c.county_name = (""))
        ∧ (∀ w ∈ dimWellAfter s wells ny_id, w ∈ s.dim_well ∨
            ((w.operator_id = none
              ∨ ∃ o ∈ dimOperatorAfter s wells, some o.operator_id = w.operator_id)
             ∧ (w.status_id = none
              ∨ ∃ t ∈ dimStatusAfter s wells, some t.status_id = w.status_id)
             ∧ (w.county_id = none
              ∨ ∃ c ∈ dimCountyAfter s wells ny_id, some c.county_id = w.county_id)))
        ∧ (∀ w ∈ wells, wellKeyKept w = true →
            mkWellRow (dimOperatorAfter s wells) (dimStatusAfter s wells)
                (dimCountyAfter s wells ny_id) ny_id w
              ∈ wellRowsOf s wells ny_id
            ∧ (w.operator_name = some ("") →
                (mkWellRow (dimOperatorAfter s wells) (dimStatusAfter s wells)
                  (dimCountyAfter s wells ny_id) ny_id w).operator_id = none)
            ∧ (w.status_desc = some ("") →
                (mkWellRow (dimOperatorAfter s wells) (dimStatusAfter s wells)
                  (dimCountyAfter s wells ny_id) ny_id w).status_id = none)
            ∧ (w.county_name = some ("") →
                (mkWellRow (dimOperatorAfter s wells) (dimStatusAfter s wells)
                  (dimCountyAfter s wells ny_id) ny_id w).county_id = none))) := by
  intro s wells ny_id hop hst hc
  have hopA : ∀ o ∈ dimOperatorAfter s wells, ¬ o.operator_name = ("") := by
    intro o ho
    have ho2 : o ∈ (observed_operators wells).foldl
        (insertIfAbsent (fun name q => decide (q.operator_name = name))
          (fun d name =>
            { operator_id := nextOperatorId d, operator_name := name }))
        s.dim_operator := ho
    rcases mem_foldl_insertIfAbsent _ _ (fun r v => r.operator_name = v)
        (fun _ _ => rfl) _ _ _ ho2 with h | ⟨v, hv, hq⟩
    · exact hop o h
    · rcases List.mem_filter.mp hv with ⟨-, hlen⟩
      intro hco
      have hv0 : v = ("") := (hq.symm.trans hco)
      rw [hv0] at hlen
      simp at hlen
  have hstA : ∀ t ∈ dimStatusAfter s wells, ¬ t.status_desc = ("") := by
    intro t ht
    have ht2 : t ∈ (observed_statuses wells).foldl
        (insertIfAbsent (fun desc q => decide (q.status_desc = desc))
          (fun d desc => { status_id := nextStatusId d, status_desc := desc }))
        s.dim_well_status := ht
    rcases mem_foldl_insertIfAbsent _ _ (fun r v => r.status_desc = v)
        (fun _ _ => rfl) _ _ _ ht2 with h | ⟨v, hv, hq⟩
    · exact hst t h
    · rcases List.mem_filter.mp hv with ⟨-, hlen⟩
      intro hco
      have hv0 : v = ("") := (hq.symm.trans hco)
      rw [hv0] at hlen
      simp at hlen
  have hcA : ∀ c ∈ dimCountyAfter s wells ny_id, ¬ c.county_name = ("") := by
    intro c0 hc0
    have hc2 : c0 ∈ (observed_counties wells).foldl
        (insertIfAbsent
          (fun name q =>
            decide (q.state_id = ny_id) && decide (q.county_name = name))
          (fun d name =>
            { county_id := nextCountyId d, state_id := ny_id,
              county_name := name }))
        s.dim_county := hc0
    rcases mem_foldl_insertIfAbsent _ _ (fun r v => r.county_name = v)
        (fun _ _ => rfl) _ _ _ hc2 with h | ⟨v, hv, hq⟩
    · exact hc c0 h
    · rcases List.mem_filter.mp hv with ⟨-, hlen⟩
      intro hco
      have hv0 : v = ("") := (hq.symm.trans hco)
      rw [hv0] at hlen
      simp at hlen
  have hemptyOp : op_map (dimOperatorAfter s wells) ("") = none := by
    have hfind : (dimOperatorAfter s wells).find?
        (fun o => decide (o.operator_name = (""))) = none :=
      List.find?_eq_none.mpr (fun o ho => by simpa using hopA o ho)
    simp [op_map, hfind]
  have hemptySt : st_map (dimStatusAfter s wells) ("") = none := by
    have hfind : (dimStatusAfter s wells).find?
        (fun t => decide (t.status_desc = (""))) = none :=
      List.find?_eq_none.mpr (fun t ht => by simpa using hstA t ht)
    simp [st_map, hfind]
  have hemptyC : c_map (dimCountyAfter s wells ny_id) ny_id ("") = none := by
    have hfind : (dimCountyAfter s wells ny_id).find?
        (fun a => decide (a.state_id = ny_id) && decide (a.county_name = (""))) = none :=
      List.find?_eq_none.mpr (fun c hcm => by
        simp only [Bool.and_eq_true, decide_eq_true_eq, not_and]
        exact fun _ => hcA c hcm)
    simp [c_map, hfind]
  have hfk : ∀ w ∈ wellRowsOf s wells ny_id,
      (w.operator_id = none
        ∨ ∃ o ∈ dimOperatorAfter s wells, some o.operator_id = w.operator_id)
      ∧ (w.status_id = none
        ∨ ∃ t ∈ dimStatusAfter s wells, some t.status_id = w.status_id)
      ∧ (w.county_id = none
        ∨ ∃ c ∈ dimCountyAfter s wells ny_id, some c.county_id = w.county_id) := by
    intro w hw
    rcases List.mem_map.mp hw with ⟨u, hu, rfl⟩
    refine ⟨?_, ?_, ?_⟩
    · cases hn : u.operator_name with
      | none => exact Or.inl (by simp [mkWellRow, hn])
      | some nm =>
          cases hfind : (dimOperatorAfter s wells).find?
              (fun o => decide (o.operator_name = nm)) with
          | none => exact Or.inl (by simp [mkWellRow, hn, op_map, hfind])
          | some o =>
              exact Or.inr ⟨o, List.mem_of_find?_eq_some hfind,
                by simp [mkWellRow, hn, op_map, hfind]⟩
    · cases hn : u.status_desc with
      | none => exact Or.inl (by simp [mkWellRow, hn])
      | some nm =>
          cases hfind : (dimStatusAfter s wells).find?
              (fun t => decide (t.status_desc = nm)) with
          | none => exact Or.inl (by simp [mkWellRow, hn, st_map, hfind])
          | some t =>
              exact Or.inr ⟨t, List.mem_of_find?_eq_some hfind,
                by simp [mkWellRow, hn, st_map, hfind]⟩
    · cases hn : u.county_name with
      | none => exact Or.inl (by simp [mkWellRow, hn])
      | some nm =>
          cases hfind : (dimCountyAfter s wells ny_id).find?
              (fun a =>
                decide (a.state_id = ny_id) && decide (a.county_name = nm)) with
          | none => exact Or.inl (by simp [mkWellRow, hn, c_map, hfind])
          | some c0 =>
              exact Or.inr ⟨c0, List.mem_of_find?_eq_some hfind,
                by simp [mkWellRow, hn, c_map, hfind]⟩
  refine ⟨hopA, hstA, hcA, ?_, ?_⟩
  · intro w hw
    have hw2 : w ∈ (wellRowsOf s wells ny_id).foldl
        (insertIfAbsent
          (fun r q => decide (q.source_well_id = r.source_well_id))
          (fun _ r => r))
        s.dim_well := hw
    rcases mem_foldl_insertIfAbsent _ _ (fun r v => r = v)
        (fun _ _ => rfl) _ _ _ hw2 with h | ⟨v, hv, hq⟩
    · exact Or.inl h
    · subst hq
      exact Or.inr (hfk _ hv)
  · intro w hw hk
    refine ⟨List.mem_map_of_mem _ (List.mem_filter.mpr ⟨hw, hk⟩), ?_, ?_, ?_⟩
    · intro he
      simp [mkWellRow, he, hemptyOp]
    · intro he
      simp [mkWellRow, he, hemptySt]
    · intro he
      simp [mkWellRow, he, hemptyC]

/-- C10 witness: on a store with empty dimensions, a kept well whose
operator value is the empty string is given a null operator foreign
key. -/
theorem c10_empty_operator_witness :
    (mkWellRow
        (dimOperatorAfter
          { dim_state := [⟨1, ("NY"), ("New York")⟩], fact := [],
            dim_operator := [], dim_well_status := [], dim_county := [],
            dim_well := [] }
          [({ source_well_id := some ("X1"), well_name := ("w"),
              county_name := some (""), operator_name := some (""),
              status_desc := some (""), latitude := none, longitude := none,
              spud_date := none, last_updated := none,
              coord_valid := false } : WellsInputRow)])
        (dimStatusAfter
          { dim_state := [⟨1, ("NY"), ("New York")⟩], fact := [],
            dim_operator := [], dim_well_status := [], dim_county := [],
            dim_well := [] }
          [({ source_well_id := some ("X1"), well_name := ("w"),
              county_name := some (""), operator_name := some (""),
              status_desc := some (""), latitude := none, longitude := none,
              spud_date := none, last_updated := none,
              coord_valid := false } : WellsInputRow)])
        (dimCountyAfter
          { dim_state := [⟨1, ("NY"), ("New York")⟩], fact := [],
            dim_operator := [], dim_well_status := [], dim_county := [],
            dim_well := [] }
          [({ source_well_id := some ("X1"), well_name := ("w"),
              county_name := some (""), operator_name := some (""),
              status_desc := some (""), latitude := none, longitude := none,
              spud_date := none, last_updated := none,
              coord_valid := false } : WellsInputRow)] 1)
        1
        ({ source_well_id := some ("X1"), well_name := ("w"),
           county_name := some (""), operator_name := some (""),
           status_desc := some (""), latitude := none, longitude := none,
           spud_date := none, last_updated := none,
           coord_valid := false } : WellsInputRow)).operator_id = none :=
  ((c10_no_empty_dims_no_dangling_fk
      { dim_state := [⟨1, ("NY"), ("New York")⟩], fact := [],
        dim_operator := [], dim_well_status := [], dim_county := [],
        dim_well := [] }
      [({ source_well_id := some ("X1"), well_name := ("w"),
          county_name := some (""), operator_name := some (""),
          status_desc := some (""), latitude := none, longitude := none,
          spud_date := none, last_updated := none,
          coord_valid := false } : WellsInputRow)] 1
      (by intro o ho; exact absurd ho (List.not_mem_nil o))
      (by intro t ht; exact absurd ht (List.not_mem_nil t))
      (by intro c hc0; exact absurd hc0 (List.not_mem_nil c))).2.2.2.2
    ({ source_well_id := some ("X1"), well_name := ("w"),
       county_name := some (""), operator_name := some (""),
       status_desc := some (""), latitude := none, longitude := none,
       spud_date := none, last_updated := none,
       coord_valid := false } : WellsInputRow)
    (List.mem_singleton.mpr rfl) rfl).2.1 rfl

/-- C9: an empty allow-list is falsy in Python, so _filter_states skips
the include filter exactly as with no allow-list; the two loader calls
return identical tables. -/
theorem c9_empty_allowlist_is_absent :
    ∀ (rows : List EiaLongRow),
      load_crude_oil rows (some []) = load_crude_oil rows none
      ∧ load_natural_gas rows (some []) = load_natural_gas rows none :=
  fun _ => ⟨rfl, rfl⟩

end OilGas
